import Mathlib

/-!
Verification of the `astra-intake-api` repository: a shallow embedding of the
intake handler in `api/astrology-intake.js` (both revisions of the handler
contained in that file), the diagnostic revision, and proofs of the spec
claims about them.

Platform primitives that are not part of the repository (`JSON.parse`,
`URLSearchParams` form decoding, `crypto.createHmac(...).digest("hex")`) are
modelled as parameters of the handler, collected in a `Platform` record.
Byte-level primitives that the claims inspect (`Buffer.toString("base64")`,
`Buffer.from(hex)`, UTF-8 encoding of strings) are implemented concretely.
External collaborators (hCaptcha, OpenAI, SendGrid, the PDF stream) are
stubbed by a `Stubs` record, and every outbound call is recorded in a trace.
-/

namespace AstraIntake

/-! ## Bytes and UTF-8 -/

/-- UTF-8 encoding of a single code point (the standard 1-4 byte encoding). -/
def charBytes (n : Nat) : List Nat :=
  if n < 0x80 then [n]
  else if n < 0x800 then [0xC0 + n / 64, 0x80 + n % 64]
  else if n < 0x10000 then [0xE0 + n / 4096, 0x80 + n / 64 % 64, 0x80 + n % 64]
  else [0xF0 + n / 262144, 0x80 + n / 4096 % 64, 0x80 + n / 64 % 64, 0x80 + n % 64]

/-- UTF-8 bytes of a string, as natural numbers below 256. -/
def strBytes (s : String) : List Nat :=
  s.data.flatMap (fun c => charBytes c.toNat)

theorem charBytes_lt (n : Nat) (h : n < 1114112) : ∀ b ∈ charBytes n, b < 256 := by
  intro b hb
  unfold charBytes at hb
  split at hb
  · simp at hb; omega
  · split at hb
    · simp at hb; omega
    · split at hb
      · simp at hb; omega
      · simp at hb; omega

theorem strBytes_lt (s : String) : ∀ b ∈ strBytes s, b < 256 := by
  intro b hb
  unfold strBytes at hb
  simp only [List.mem_flatMap] at hb
  obtain ⟨c, _, hc⟩ := hb
  refine charBytes_lt c.toNat ?_ b hc
  have hv := c.valid
  rcases hv with h | ⟨_, h2⟩
  · exact Nat.lt_trans h (by decide)
  · exact h2

/-! ## Base64 (model of `Buffer.prototype.toString("base64")`) -/

def b64tbl (n : Nat) : Char :=
  "ABCDEFGHIJKLMNOPQRSTUVWXYZabcdefghijklmnopqrstuvwxyz0123456789+/".data.getD n '='

def b64dec (c : Char) : Option Nat :=
  let l := "ABCDEFGHIJKLMNOPQRSTUVWXYZabcdefghijklmnopqrstuvwxyz0123456789+/".data
  let i := l.indexOf c
  if i < l.length then some i else none

theorem b64dec_tbl : ∀ n, n < 64 → b64dec (b64tbl n) = some n := by decide

theorem b64tbl_ne : ∀ n, n < 64 → ¬(b64tbl n = '=') := by decide

def b64encodeList : List Nat → List Char
  | [] => []
  | [a] => [b64tbl (a / 4), b64tbl (a % 4 * 16), '=', '=']
  | [a, b] => [b64tbl (a / 4), b64tbl (a % 4 * 16 + b / 16), b64tbl (b % 16 * 4), '=']
  | a :: b :: c :: rest =>
    b64tbl (a / 4) :: b64tbl (a % 4 * 16 + b / 16) :: b64tbl (b % 16 * 4 + c / 64) ::
      b64tbl (c % 64) :: b64encodeList rest

def b64decodeList : List Char → Option (List Nat)
  | [] => some []
  | w :: x :: y :: z :: rest =>
    match b64dec w, b64dec x with
    | some dw, some dx =>
      if y = '=' then
        if z = '=' ∧ rest = [] ∧ dx % 16 = 0 then some [dw * 4 + dx / 16] else none
      else
        match b64dec y with
        | some dy =>
          if z = '=' then
            if rest = [] ∧ dy % 4 = 0 then some [dw * 4 + dx / 16, dx % 16 * 16 + dy / 4]
            else none
          else
            match b64dec z with
            | some dz =>
              (b64decodeList rest).map
                (fun r => (dw * 4 + dx / 16) :: (dx % 16 * 16 + dy / 4) :: (dy % 4 * 64 + dz) :: r)
            | none => none
        | none => none
    | _, _ => none
  | _ => none

/-- The base64 text of a byte sequence, as a string. -/
def b64encode (l : List Nat) : String := ⟨b64encodeList l⟩

/-- Base64 decoding, inverse to `b64encode`. -/
def b64decode (s : String) : Option (List Nat) := b64decodeList s.data

theorem b64_roundtrip (l : List Nat) (h : ∀ b ∈ l, b < 256) :
    b64decodeList (b64encodeList l) = some l := by
  induction l using b64encodeList.induct with
  | case1 => simp [b64encodeList, b64decodeList]
  | case2 a =>
    have ha : a < 256 := h a (by simp)
    have e1 := b64dec_tbl (a / 4) (by omega)
    have e2 := b64dec_tbl (a % 4 * 16) (by omega)
    simp only [b64encodeList, b64decodeList, e1, e2]
    have : a % 4 * 16 % 16 = 0 := by omega
    simp [this]
    omega
  | case3 a b =>
    have ha : a < 256 := h a (by simp)
    have hb : b < 256 := h b (by simp)
    have e1 := b64dec_tbl (a / 4) (by omega)
    have e2 := b64dec_tbl (a % 4 * 16 + b / 16) (by omega)
    have e3 := b64dec_tbl (b % 16 * 4) (by omega)
    have n3 := b64tbl_ne (b % 16 * 4) (by omega)
    simp only [b64encodeList, b64decodeList, e1, e2, e3, if_neg n3]
    have : b % 16 * 4 % 4 = 0 := by omega
    simp [this]
    omega
  | case4 a b c rest ih =>
    have ha : a < 256 := h a (by simp)
    have hb : b < 256 := h b (by simp)
    have hc : c < 256 := h c (by simp)
    have e1 := b64dec_tbl (a / 4) (by omega)
    have e2 := b64dec_tbl (a % 4 * 16 + b / 16) (by omega)
    have e3 := b64dec_tbl (b % 16 * 4 + c / 64) (by omega)
    have e4 := b64dec_tbl (c % 64) (by omega)
    have n3 := b64tbl_ne (b % 16 * 4 + c / 64) (by omega)
    have n4 := b64tbl_ne (c % 64) (by omega)
    have ih2 := ih (fun b hb => h b (by simp [hb]))
    simp only [b64encodeList, b64decodeList, e1, e2, e3, e4, if_neg n3, if_neg n4, ih2,
      Option.map, Option.some.injEq, List.cons.injEq]
    refine ⟨by omega, by omega, by omega, trivial⟩

theorem b64decode_encode (l : List Nat) (h : ∀ b ∈ l, b < 256) :
    b64decode (b64encode l) = some l :=
  b64_roundtrip l h

/-! ## Hex decoding and `crypto.timingSafeEqual` -/

/-- Value of one hex digit (`0-9`, `a-f`, `A-F`). -/
def hexVal (c : Char) : Option Nat :=
  if '0' ≤ c ∧ c ≤ '9' then some (c.toNat - '0'.toNat)
  else if 'a' ≤ c ∧ c ≤ 'f' then some (c.toNat - 'a'.toNat + 10)
  else if 'A' ≤ c ∧ c ≤ 'F' then some (c.toNat - 'A'.toNat + 10)
  else none

/-- `Buffer.from(s, "hex")`: decode hex pairs, stopping at the first invalid
pair and dropping a trailing unpaired digit. -/
def hexDecodeBytes : List Char → List Nat
  | a :: b :: rest =>
    match hexVal a, hexVal b with
    | some x, some y => (x * 16 + y) :: hexDecodeBytes rest
    | _, _ => []
  | _ => []

/-- `crypto.timingSafeEqual` over two hex-decoded buffers: a length mismatch
throws in Node (caught by the caller, yielding `false`); otherwise the byte
sequences are compared. Both outcomes coincide with list equality. -/
def timingSafeEqHex (sig expected : String) : Bool :=
  hexDecodeBytes sig.data == hexDecodeBytes expected.data

/-! ## Substring containment (model of `String.prototype.includes` after
`toLowerCase`) -/

/-- Does the second list start with the first one? -/
def leadEq : List Char → List Char → Bool
  | [], _ => true
  | _ :: _, [] => false
  | a :: as, b :: bs => a == b && leadEq as bs

/-- `hay.includes(pat)` on character lists. -/
def containsSub (pat : List Char) : List Char → Bool
  | [] => leadEq pat []
  | c :: cs => leadEq pat (c :: cs) || containsSub pat cs

/-- ASCII lowercasing of a string, as a character list
(model of `String.prototype.toLowerCase` restricted to the ASCII range,
which is all the handler compares against). -/
def lowerData (s : String) : List Char :=
  s.data.map Char.toLower

/-! ## Data model

JavaScript objects reaching the handler are modelled as association lists of
string keys and string values; a missing key and a falsy (empty-string) value
coincide with JS truthiness on the string fields the handler reads. -/

/-- A parsed body object: string keys to string values. -/
abbrev Obj := List (String × String)

/-- Field access with the JS convention that a missing key reads as falsy. -/
def getStr (o : Obj) (k : String) : String := (o.lookup k).getD ""

/-- Platform primitives external to the repository: `JSON.parse` (restricted
to flat string objects; `none` models a parse exception), `URLSearchParams`
form decoding, and `crypto.createHmac("sha256", secret).update(m).digest("hex")`. -/
structure Platform where
  jsonParse : String → Option Obj
  formParse : String → Obj
  hmacHex : String → String → String

/-- Environment configuration; the empty string models an unset (falsy)
variable, matching every `process.env.X || ...` read in the source. -/
structure Env where
  shopifySecret : String := ""
  hcaptchaSecret : String := ""
  brandName : String := ""
  fromEmail : String := ""
  testMode : Bool := false
deriving DecidableEq, Repr

/-- The JSON object returned by the CAPTCHA provider; `success = none` models
a response without the flag (`hc?.success` is then falsy). -/
structure CaptchaResp where
  success : Option Bool
deriving DecidableEq, Repr

/-- Stubbed external collaborators: `captcha = none` models a fetch/JSON
transport failure, `gen = none` an OpenAI exception, `gen = some t` a
completed call with `output_text || "" = t`; `renderOk`/`sendOk` say whether
the PDF stream and the SendGrid send complete. -/
structure Stubs where
  captcha : Option CaptchaResp
  gen : Option String
  renderOk : Bool
  sendOk : Bool
deriving DecidableEq, Repr

/-- An HTTP request as the handler observes it: method, the headers it reads
(absent headers are the empty string), the path and decoded query pairs of
`req.url`, and the raw body bytes. -/
structure Request where
  method : String
  origin : String := ""
  acrh : String := ""
  contentType : String := ""
  shopDomain : String := ""
  fwdHost : String := ""
  path : String := ""
  query : List (String × String) := []
  rawBody : String := ""
deriving DecidableEq, Repr

/-- The JSON bodies this API sends: an optional `ok` flag, `message` and
`error` fields (`{}` is all-`none`; the `...extra` spread is always empty in
the source). -/
structure JBody where
  ok : Option Bool := none
  message : Option String := none
  error : Option String := none
deriving DecidableEq, Repr

/-- An HTTP response: status, headers in the order they are set, and the JSON
body if one is written (`none` models a bare `res.end()`). -/
structure HttpResponse where
  status : Nat
  headers : List (String × String)
  body : Option JBody
deriving DecidableEq, Repr

/-- One SendGrid attachment record. -/
structure Attachment where
  content : String
  filename : String
  mimeType : String
  disposition : String
deriving DecidableEq, Repr

/-- One SendGrid message. -/
structure EmailMsg where
  toAddr : String
  fromAddr : String
  subject : String
  text : String
  attachments : List Attachment
deriving DecidableEq, Repr

/-- The outbound calls the handler makes, in order. -/
inductive Call where
  | captchaVerify (secret token : String)
  | generate (prompt : String)
  | sendEmail (msg : EmailMsg)
deriving DecidableEq, Repr

/-! ## CORS and response helpers -/

/-- `setCors` of the first handler revision (methods `POST, OPTIONS`). -/
def setCors1 (req : Request) : List (String × String) :=
  [("Access-Control-Allow-Origin", if req.origin = "" then "*" else req.origin),
   ("Vary", "Origin"),
   ("Access-Control-Allow-Headers", if req.acrh = "" then "Content-Type" else req.acrh),
   ("Access-Control-Allow-Methods", "POST, OPTIONS"),
   ("Access-Control-Max-Age", "86400")]

/-- `setCors` of the second handler revision (methods `POST, OPTIONS, GET`,
set before the headers entry). -/
def setCors2 (req : Request) : List (String × String) :=
  [("Access-Control-Allow-Origin", if req.origin = "" then "*" else req.origin),
   ("Vary", "Origin"),
   ("Access-Control-Allow-Methods", "POST, OPTIONS, GET"),
   ("Access-Control-Allow-Headers", if req.acrh = "" then "Content-Type" else req.acrh),
   ("Access-Control-Max-Age", "86400")]

/-- `json(req, res, code, obj)` of revision 1. -/
def jsonResp1 (req : Request) (code : Nat) (b : JBody) : HttpResponse :=
  { status := code
    headers := setCors1 req ++ [("Content-Type", "application/json")]
    body := some b }

/-- `bad(req, res, code, msg)` of revision 1. -/
def bad1 (req : Request) (code : Nat) (msg : String) : HttpResponse :=
  jsonResp1 req code { ok := some false, error := some msg }

/-- `reply(req, res, code, obj)` of revision 2. -/
def jsonResp2 (req : Request) (code : Nat) (b : JBody) : HttpResponse :=
  { status := code
    headers := setCors2 req ++ [("Content-Type", "application/json")]
    body := some b }

/-- `bad(req, res, code, error)` of revision 2. -/
def bad2 (req : Request) (code : Nat) (msg : String) : HttpResponse :=
  jsonResp2 req code { ok := some false, error := some msg }

/-! ## Body reading (`readBody`, identical in both revisions) -/

/-- `readBody`: JSON content types parse strictly (an unparseable non-empty
body rejects the promise), form content types decode as form fields, anything
else is best-effort JSON falling back to the empty object. An empty raw body
is the empty object on both JSON branches. -/
def readBody (pf : Platform) (ct raw : String) : Option Obj :=
  let c := lowerData ct
  if containsSub "application/json".data c then
    if raw = "" then some [] else pf.jsonParse raw
  else if containsSub "application/x-www-form-urlencoded".data c then
    some (pf.formParse raw)
  else if raw = "" then some []
  else
    match pf.jsonParse raw with
    | some o => some o
    | none => some []

/-! ## Shopify App Proxy detection and verification (revision 1 only) -/

/-- `isFromShopifyProxy`: either forwarding header present (non-empty). -/
def isFromShopifyProxy (req : Request) : Bool :=
  req.shopDomain != "" || req.fwdHost != ""

/-- `URLSearchParams.get`: first value of the key, if any. -/
def qpGet (q : List (String × String)) (k : String) : Option String :=
  (q.lookup k)

/-- The `k=v` pairs of every query parameter except `signature`, in query
order. -/
def proxyPairs (q : List (String × String)) : List String :=
  (q.filter (fun kv => kv.1 ≠ "signature")).map (fun kv => kv.1 ++ "=" ++ kv.2)

/-- Insertion into a lexicographically sorted list of strings. -/
def insertSorted (s : String) : List String → List String
  | [] => [s]
  | t :: ts => if s ≤ t then s :: t :: ts else t :: insertSorted s ts

/-- Lexicographic sort (model of `Array.prototype.sort` on these pairs). -/
def sortStrings : List String → List String
  | [] => []
  | s :: ss => insertSorted s (sortStrings ss)

/-- `Array.prototype.join("&")`. -/
def joinAmp : List String → String
  | [] => ""
  | [s] => s
  | s :: t :: rest => s ++ "&" ++ joinAmp (t :: rest)

/-- `verifyShopifyProxy`: skipped (true) without a configured secret;
otherwise recompute the hex HMAC-SHA256 of
`path ++ "?" ++ sorted k=v pairs joined with "&"` and compare it with the
supplied `signature` query parameter via `crypto.timingSafeEqual` on the
hex-decoded buffers. -/
def verifyShopifyProxy (pf : Platform) (env : Env) (req : Request) : Bool :=
  if env.shopifySecret = "" then true
  else
    match qpGet req.query "signature" with
    | none => false
    | some signature =>
      let base := req.path ++ "?" ++ joinAmp (sortStrings (proxyPairs req.query))
      let expected := pf.hmacHex env.shopifySecret base
      timingSafeEqHex signature expected

/-! ## Query merge (revision 1 only) -/

/-- `for (const [k, v] of url.searchParams) if (!(k in body)) body[k] = v`. -/
def mergeQuery (body : Obj) : List (String × String) → Obj
  | [] => body
  | kv :: rest =>
    mergeQuery (if (body.lookup kv.1).isSome then body else body ++ [kv]) rest

/-! ## Field extraction and validation (identical in both revisions) -/

/-- The destructured fields of the body, with the source defaults
(`tz = ""`, `notes = ""`; a missing `hcaptchaToken` reads as falsy). -/
structure Fields where
  q : String
  email : String
  first : String
  last : String
  dob : String
  tob : String
  country : String
  city : String
  tz : String
  notes : String
  token : String
deriving DecidableEq, Repr

def extractFields (body : Obj) : Fields :=
  { q := getStr body "q", email := getStr body "email", first := getStr body "first"
    last := getStr body "last", dob := getStr body "dob", tob := getStr body "tob"
    country := getStr body "country", city := getStr body "city"
    tz := getStr body "tz", notes := getStr body "notes"
    token := getStr body "hcaptchaToken" }

/-- `!q || !email || !first || !last || !dob || !tob || !country || !city`. -/
def missingRequired (f : Fields) : Bool :=
  f.q == "" || f.email == "" || f.first == "" || f.last == "" ||
  f.dob == "" || f.tob == "" || f.country == "" || f.city == ""

/-- `!hcRes?.success`: the flag must be present and true. -/
def hcSuccess (r : CaptchaResp) : Bool := r.success.getD false

/-- `process.env.BRAND_NAME || "Your Brand"`. -/
def brandOf (env : Env) : String :=
  if env.brandName = "" then "Your Brand" else env.brandName

/-! ## Prompts -/

/-- The OpenAI prompt of revision 1. -/
def prompt1 (f : Fields) : String :=
  "You are an expert natal chart interpreter. Compose a clear, empathetic, non-deterministic reading that answers the user's question using birth details.\nAvoid medical/legal/financial advice. Include a gentle disclaimer and encourage personal agency.\n\nUser question: " ++
  f.q ++ "\nBirth details:\n- Name: " ++ f.first ++ " " ++ f.last ++
  "\n- Date of birth: " ++ f.dob ++ "\n- Time of birth (local): " ++ f.tob ++
  "\n- City/Town: " ++ f.city ++ "\n- Country: " ++ f.country ++
  "\n- Time zone (as given): " ++ (if f.tz = "" then "unspecified" else f.tz) ++
  "\n- Notes: " ++ (if f.notes = "" then "none" else f.notes) ++
  "\n\nStructure:\n1) Short summary (2–3 sentences)\n2) Key themes (bulleted)\n3) Timing windows (probabilistic ranges)\n4) Practical guidance (bulleted)\n5) Closing encouragement."

/-- The OpenAI prompt of revision 2. -/
def prompt2 (f : Fields) : String :=
  "You are an empathetic natal chart interpreter. Provide a clear, non-deterministic reading with a brief summary, key themes, timing windows (probabilistic), and practical guidance. Avoid legal/medical/financial advice.\n\nUser question: " ++
  f.q ++ "\nBirth details:\n- Name: " ++ f.first ++ " " ++ f.last ++
  "\n- Date of birth: " ++ f.dob ++ "\n- Time of birth (local): " ++ f.tob ++
  "\n- City/Town: " ++ f.city ++ "\n- Country: " ++ f.country ++
  "\n- Time zone: " ++ (if f.tz = "" then "unspecified" else f.tz) ++
  "\n- Notes: " ++ (if f.notes = "" then "none" else f.notes)

/-! ## PDF rendering

`renderPdf` collects the bytes emitted by the PDF stream; the document text is
modelled as the UTF-8 bytes of the text chunks written to the document, in
the order the source writes them. -/

def disclaimer1 : String :=
  "Disclaimer: This material is for reflection and entertainment. Outcomes depend on your choices. If you need professional help, consult a qualified practitioner."

def disclaimer2 : String :=
  "Disclaimer: This material is for reflection and entertainment. Outcomes depend on your choices."

/-- The text chunks written to the document, in the order the source writes
them: heading, the enumerated fields, the body text
(`bodyText || "No content generated."`), and the closing disclaimer. -/
def docChunks (disclaimer brand : String) (f : Fields) (bodyText : String) : List String :=
  [brand ++ " – Personalised Reading",
   "Question: " ++ f.q,
   "Name: " ++ f.first ++ " " ++ f.last,
   "DOB: " ++ f.dob ++ "   TOB: " ++ f.tob,
   "Birthplace: " ++ f.city ++ ", " ++ f.country] ++
  (if f.tz = "" then [] else ["Time zone: " ++ f.tz]) ++
  (if f.notes = "" then [] else ["Notes: " ++ f.notes]) ++
  [if bodyText = "" then "No content generated." else bodyText,
   disclaimer]

/-- The buffer collected from the document stream: the bytes of the chunks in
order. -/
def renderPdfDoc (disclaimer brand : String) (f : Fields) (bodyText : String) : List Nat :=
  (docChunks disclaimer brand f bodyText).flatMap strBytes

/-- `renderPdf` of revision 1. -/
def renderPdf1 (brand : String) (f : Fields) (bodyText : String) : List Nat :=
  renderPdfDoc disclaimer1 brand f bodyText

/-- `renderPdf` of revision 2 (shorter disclaimer). -/
def renderPdf2 (brand : String) (f : Fields) (bodyText : String) : List Nat :=
  renderPdfDoc disclaimer2 brand f bodyText

/-! ## Email messages -/

/-- The SendGrid message of revision 1. -/
def email1 (env : Env) (brand : String) (f : Fields) (pdf : List Nat) : EmailMsg :=
  { toAddr := f.email
    fromAddr := env.fromEmail
    subject := brand ++ " – Your personalised PDF reading"
    text := "Hi " ++ f.first ++
      ",\n\nAttached is your personalised reading in PDF format.\n\nQuestion: " ++
      f.q ++ "\n\nWarmly,\n" ++ brand
    attachments := [{ content := b64encode pdf, filename := "reading.pdf"
                      mimeType := "application/pdf", disposition := "attachment" }] }

/-- The SendGrid message of revision 2. -/
def email2 (env : Env) (brand : String) (f : Fields) (pdf : List Nat) : EmailMsg :=
  { toAddr := f.email
    fromAddr := env.fromEmail
    subject := brand ++ " – Your personalised PDF reading"
    text := "Hi " ++ f.first ++ ",\n\nAttached is your personalised reading.\n\nQuestion: " ++
      f.q ++ "\n\nWarmly,\n" ++ brand
    attachments := [{ content := b64encode pdf, filename := "reading.pdf"
                      mimeType := "application/pdf", disposition := "attachment" }] }

/-! ## The first handler revision (Shopify-proxy-aware, no outer catch) -/

/-- The handler at the heart of revision 1: OPTIONS preflight, POST-only
dispatch, optional App Proxy HMAC verification, body read with query-merge,
validation, and the hCaptcha → OpenAI → PDF → SendGrid pipeline. Returns the
response and the trace of outbound calls. -/
def handler1 (pf : Platform) (env : Env) (st : Stubs) (req : Request) :
    HttpResponse × List Call :=
  if req.method = "OPTIONS" then
    ({ status := 204, headers := setCors1 req, body := none }, [])
  else if req.method ≠ "POST" then
    (bad1 req 405 "Method not allowed", [])
  else if isFromShopifyProxy req && !(verifyShopifyProxy pf env req) then
    (bad1 req 401 "Invalid Shopify proxy signature", [])
  else
    match readBody pf req.contentType req.rawBody with
    | none => (bad1 req 400 "Invalid JSON body", [])
    | some body0 =>
      let f := extractFields (mergeQuery body0 req.query)
      if missingRequired f then
        (bad1 req 400 "Missing required fields.", [])
      else if f.token = "" then
        (bad1 req 400 "hCaptcha token missing.", [])
      else
        let c1 : List Call := [.captchaVerify env.hcaptchaSecret f.token]
        match st.captcha with
        | none => (bad1 req 502 "Could not reach hCaptcha.", c1)
        | some hc =>
          if !(hcSuccess hc) then
            (bad1 req 400 "hCaptcha verification failed.", c1)
          else
            let c2 := c1 ++ [.generate (prompt1 f)]
            match st.gen with
            | none => (bad1 req 502 "AI generation failed.", c2)
            | some bodyText =>
              if !st.renderOk then
                (bad1 req 500 "PDF generation failed.", c2)
              else
                let brand := brandOf env
                let pdf := renderPdf1 brand f bodyText
                let msg := email1 env brand f pdf
                let c3 := c2 ++ [.sendEmail msg]
                if !st.sendOk then
                  (bad1 req 502 "Email delivery failed.", c3)
                else
                  (jsonResp1 req 200
                    { ok := some true
                      message := some "Your reading is being sent to your email." }, c3)

/-! ## The second handler revision (outer catch-all, TEST_MODE, no proxy
check, no query merge) -/

/-- The body of revision 2's outer `try`: `none` in the first component marks
an exception escaping every step-specific handler (the only such site in the
source is the `await renderPdf` of the TEST_MODE branch, which sits outside
any inner `try`). -/
def handler2aux (pf : Platform) (env : Env) (st : Stubs) (req : Request) :
    Option HttpResponse × List Call :=
  if req.method = "OPTIONS" then
    (some (jsonResp2 req 204 {}), [])
  else if req.method = "GET" then
    (some (jsonResp2 req 200
      { ok := some true, message := some "Astrology Intake API is reachable." }), [])
  else if req.method ≠ "POST" then
    (some (bad2 req 405 "Method not allowed"), [])
  else
    match readBody pf req.contentType req.rawBody with
    | none => (some (bad2 req 400 "Invalid JSON body"), [])
    | some body =>
      let f := extractFields body
      if missingRequired f then
        (some (bad2 req 400 "Missing required fields."), [])
      else if f.token = "" then
        (some (bad2 req 400 "hCaptcha token missing."), [])
      else
        let c1 : List Call := [.captchaVerify env.hcaptchaSecret f.token]
        match st.captcha with
        | none => (some (bad2 req 502 "Could not reach hCaptcha."), c1)
        | some hc =>
          if !(hcSuccess hc) then
            (some (bad2 req 400 "hCaptcha verification failed."), c1)
          else
            let brand := brandOf env
            if env.testMode then
              if !st.renderOk then (none, c1)
              else
                (some (jsonResp2 req 200
                  { ok := some true
                    message := some "Test mode OK (PDF generated, email skipped)." }), c1)
            else
              let c2 := c1 ++ [.generate (prompt2 f)]
              match st.gen with
              | none => (some (bad2 req 502 "AI generation failed."), c2)
              | some bodyText =>
                if !st.renderOk then
                  (some (bad2 req 500 "PDF generation failed."), c2)
                else
                  let pdf := renderPdf2 brand f bodyText
                  let msg := email2 env brand f pdf
                  let c3 := c2 ++ [.sendEmail msg]
                  if !st.sendOk then
                    (some (bad2 req 502 "Email delivery failed."), c3)
                  else
                    (some (jsonResp2 req 200
                      { ok := some true
                        message := some "Your reading is being sent to your email." }), c3)

/-- Revision 2's exported handler: the outer `catch` turns any escaped
exception into a JSON 500 `Server error.` response. -/
def handler2 (pf : Platform) (env : Env) (st : Stubs) (req : Request) :
    HttpResponse × List Call :=
  let r := handler2aux pf env st req
  (r.1.getD (jsonResp2 req 500 { ok := some false, error := some "Server error." }), r.2)

/-! ## Helper lemmas -/

theorem lookup_append (l₁ l₂ : Obj) (k : String) :
    ((l₁ ++ l₂).lookup k) = ((l₁.lookup k).or (l₂.lookup k)) := by
  induction l₁ with
  | nil => simp
  | cons h t ih => by_cases hk : k == h.1 <;> simp [List.lookup, hk, ih]

theorem strBytes_infix_flatMap (s : String) (l : List String) (hs : s ∈ l) :
    strBytes s <:+: l.flatMap strBytes := by
  induction l with
  | nil => cases hs
  | cons a as ih =>
    rcases List.mem_cons.mp hs with rfl | hmem
    · exact ⟨[], as.flatMap strBytes, by simp⟩
    · obtain ⟨u, v, huv⟩ := ih hmem
      exact ⟨strBytes a ++ u, v, by simp [huv, List.append_assoc]⟩

theorem renderPdfDoc_lt (d b : String) (f : Fields) (t : String) :
    ∀ x ∈ renderPdfDoc d b f t, x < 256 := by
  intro x hx
  unfold renderPdfDoc at hx
  rw [List.mem_flatMap] at hx
  obtain ⟨s, _, hxs⟩ := hx
  exact strBytes_lt s x hxs

theorem bodyChunk_mem (d b : String) (f : Fields) (t : String) :
    (if t = "" then "No content generated." else t) ∈ docChunks d b f t := by
  by_cases htz : f.tz = "" <;> by_cases hn : f.notes = "" <;> simp [docChunks, htz, hn]

theorem bodyChunk_infix (d b : String) (f : Fields) (t : String) :
    strBytes (if t = "" then "No content generated." else t) <:+: renderPdfDoc d b f t :=
  strBytes_infix_flatMap _ _ (bodyChunk_mem d b f t)

theorem genText_infix (d b : String) (f : Fields) (t : String) :
    strBytes t <:+: renderPdfDoc d b f t := by
  by_cases ht : t = ""
  · subst ht
    have h0 : strBytes "" = [] := rfl
    rw [h0]
    exact List.nil_infix
  · have h := bodyChunk_infix d b f t
    rwa [if_neg ht] at h

theorem mergeQuery_lookup (qs : List (String × String)) (body : Obj) (k : String) :
    ((mergeQuery body qs).lookup k) = ((body.lookup k).or (qs.lookup k)) := by
  induction qs generalizing body with
  | nil => simp [mergeQuery]
  | cons kv rest ih =>
    simp only [mergeQuery]
    by_cases hs : (body.lookup kv.1).isSome
    · rw [if_pos hs, ih]
      by_cases hk : k == kv.1
      · have hke : k = kv.1 := beq_iff_eq.mp hk
        subst hke
        obtain ⟨v, hv⟩ := Option.isSome_iff_exists.mp hs
        simp [List.lookup, hv, Option.or]
      · simp [List.lookup, hk]
    · rw [if_neg hs, ih, lookup_append]
      have hb : body.lookup kv.1 = none := Option.not_isSome_iff_eq_none.mp hs
      by_cases hk : k == kv.1
      · have hke : k = kv.1 := beq_iff_eq.mp hk
        subst hke
        simp [List.lookup, hb, Option.or]
      · simp only [List.lookup, hk, if_neg]
        cases List.lookup k body <;> rfl

/-! ## Concrete fixtures used to instantiate the theorems below -/

/-- A body object carrying every required field and a CAPTCHA token. -/
def fxBody : Obj :=
  [("q", "a"), ("email", "e"), ("first", "f"), ("last", "l"), ("dob", "d"),
   ("tob", "t"), ("country", "c"), ("city", "y"), ("hcaptchaToken", "k")]

/-- `fxBody` without the question field. -/
def fxBodyNoQ : Obj :=
  [("email", "e"), ("first", "f"), ("last", "l"), ("dob", "d"),
   ("tob", "t"), ("country", "c"), ("city", "y"), ("hcaptchaToken", "k")]

/-- `fxBody` without the CAPTCHA token. -/
def fxBodyNoTok : Obj :=
  [("q", "a"), ("email", "e"), ("first", "f"), ("last", "l"), ("dob", "d"),
   ("tob", "t"), ("country", "c"), ("city", "y")]

/-- A concrete platform: a JSON parser recognising three raw bodies and
failing on anything else, an inert form parser, and an HMAC always digesting
to `"11"`. -/
def fxPlat : Platform :=
  { jsonParse := fun raw =>
      if raw = "full" then some fxBody
      else if raw = "noq" then some fxBodyNoQ
      else if raw = "notok" then some fxBodyNoTok
      else none
    formParse := fun _ => []
    hmacHex := fun _ _ => "11" }

def fxReq : Request :=
  { method := "POST", contentType := "application/json", rawBody := "full" }

def fxReqNoQ : Request :=
  { method := "POST", contentType := "application/json", rawBody := "noq" }

def fxReqNoTok : Request :=
  { method := "POST", contentType := "application/json", rawBody := "notok" }

def fxOptions : Request :=
  { method := "OPTIONS", origin := "https://shop.example" }

/-- A POST forwarded by the App Proxy, carrying a signature that does not
match the recomputed digest (`"11"`). -/
def fxProxyReq : Request :=
  { method := "POST"
    contentType := "application/json"
    rawBody := "full"
    shopDomain := "x.myshopify.com"
    path := "/apps/intake"
    query := [("a", "1"), ("signature", "00")] }

def fxEnvSecret : Env := { shopifySecret := "sek" }

def fxEnvTest : Env := { testMode := true }

/-- A POST whose JSON body is empty but whose query string carries every
field. -/
def fxQueryReq : Request :=
  { method := "POST"
    contentType := "application/json"
    rawBody := ""
    query := fxBody }

def fxStubs : Stubs :=
  { captcha := some { success := some true }, gen := some "Sample reading text"
    renderOk := true, sendOk := true }

def fxStubsBadCaptcha : Stubs := { fxStubs with captcha := some { success := some false } }

def fxStubsEmptyGen : Stubs := { fxStubs with gen := some "" }

def fxStubsNoRender : Stubs := { fxStubs with renderOk := false }

/-- A POST whose non-empty raw body the platform JSON parser rejects. -/
def fxReqBadJson : Request :=
  { method := "POST", contentType := "application/json", rawBody := "zzz" }

theorem renderPdf1_lt (b : String) (f : Fields) (t : String) :
    ∀ x ∈ renderPdf1 b f t, x < 256 :=
  renderPdfDoc_lt disclaimer1 b f t

theorem renderPdf2_lt (b : String) (f : Fields) (t : String) :
    ∀ x ∈ renderPdf2 b f t, x < 256 :=
  renderPdfDoc_lt disclaimer2 b f t

theorem renderPdf1_infix (b : String) (f : Fields) (t : String) :
    strBytes t <:+: renderPdf1 b f t :=
  genText_infix disclaimer1 b f t

theorem renderPdf2_infix (b : String) (f : Fields) (t : String) :
    strBytes t <:+: renderPdf2 b f t :=
  genText_infix disclaimer2 b f t

/-! ## The claims -/

/-- C1: for every POST request with all required fields present, a CAPTCHA
response the verifier accepts, a generation service returning text `t`, a
renderer that completes and a delivery provider that accepts the send, both
revisions answer 200 with
`{ok: true, message: "Your reading is being sent to your email."}`, and the
delivery call carries the rendered document base64-encoded as an attachment
named `reading.pdf` whose decoded content contains the generated text. -/
theorem c1_end_to_end (pf : Platform) (env : Env) (st : Stubs) (t : String)
    (hcap : st.captcha = some { success := some true })
    (hgen : st.gen = some t)
    (hrend : st.renderOk = true) (hsend : st.sendOk = true)
    (htm : env.testMode = false) :
    (∀ req body0, req.method = "POST" →
      (isFromShopifyProxy req && !(verifyShopifyProxy pf env req)) = false →
      readBody pf req.contentType req.rawBody = some body0 →
      missingRequired (extractFields (mergeQuery body0 req.query)) = false →
      (extractFields (mergeQuery body0 req.query)).token ≠ "" →
      ((handler1 pf env st req).1 =
         jsonResp1 req 200
           { ok := some true, message := some "Your reading is being sent to your email." } ∧
       (handler1 pf env st req).2 =
         [Call.captchaVerify env.hcaptchaSecret
            (extractFields (mergeQuery body0 req.query)).token,
          Call.generate (prompt1 (extractFields (mergeQuery body0 req.query))),
          Call.sendEmail (email1 env (brandOf env) (extractFields (mergeQuery body0 req.query))
            (renderPdf1 (brandOf env) (extractFields (mergeQuery body0 req.query)) t))] ∧
       (email1 env (brandOf env) (extractFields (mergeQuery body0 req.query))
          (renderPdf1 (brandOf env) (extractFields (mergeQuery body0 req.query)) t)).attachments =
         [{ content := b64encode
              (renderPdf1 (brandOf env) (extractFields (mergeQuery body0 req.query)) t)
            filename := "reading.pdf", mimeType := "application/pdf"
            disposition := "attachment" }] ∧
       b64decode (b64encode
           (renderPdf1 (brandOf env) (extractFields (mergeQuery body0 req.query)) t)) =
         some (renderPdf1 (brandOf env) (extractFields (mergeQuery body0 req.query)) t) ∧
       strBytes t <:+: renderPdf1 (brandOf env) (extractFields (mergeQuery body0 req.query)) t)) ∧
    (∀ req body0, req.method = "POST" →
      readBody pf req.contentType req.rawBody = some body0 →
      missingRequired (extractFields body0) = false →
      (extractFields body0).token ≠ "" →
      ((handler2 pf env st req).1 =
         jsonResp2 req 200
           { ok := some true, message := some "Your reading is being sent to your email." } ∧
       (handler2 pf env st req).2 =
         [Call.captchaVerify env.hcaptchaSecret (extractFields body0).token,
          Call.generate (prompt2 (extractFields body0)),
          Call.sendEmail (email2 env (brandOf env) (extractFields body0)
            (renderPdf2 (brandOf env) (extractFields body0) t))] ∧
       (email2 env (brandOf env) (extractFields body0)
          (renderPdf2 (brandOf env) (extractFields body0) t)).attachments =
         [{ content := b64encode (renderPdf2 (brandOf env) (extractFields body0) t)
            filename := "reading.pdf", mimeType := "application/pdf"
            disposition := "attachment" }] ∧
       b64decode (b64encode (renderPdf2 (brandOf env) (extractFields body0) t)) =
         some (renderPdf2 (brandOf env) (extractFields body0) t) ∧
       strBytes t <:+: renderPdf2 (brandOf env) (extractFields body0) t)) := by
  constructor
  · intro req body0 hm hpx hrb hmiss htok
    refine ⟨?_, ?_, ?_, ?_, ?_⟩
    · simp [handler1, hm, hpx, hrb, hmiss, htok, hcap, hgen, hrend, hsend, hcSuccess]
    · simp [handler1, hm, hpx, hrb, hmiss, htok, hcap, hgen, hrend, hsend, hcSuccess]
    · simp [email1]
    · exact b64decode_encode _ (renderPdf1_lt _ _ _)
    · exact renderPdf1_infix _ _ _
  · intro req body0 hm hrb hmiss htok
    refine ⟨?_, ?_, ?_, ?_, ?_⟩
    · simp [handler2, handler2aux, hm, hrb, hmiss, htok, hcap, hgen, hrend, hsend, htm,
        hcSuccess]
    · simp [handler2, handler2aux, hm, hrb, hmiss, htok, hcap, hgen, hrend, hsend, htm,
        hcSuccess]
    · simp [email2]
    · exact b64decode_encode _ (renderPdf2_lt _ _ _)
    · exact renderPdf2_infix _ _ _

/-- Witness for C1: the fully populated POST `fxReq` under all-accepting
stubs yields 200 and the success message in both revisions. -/
theorem c1_end_to_end_witness :
    (handler1 fxPlat {} fxStubs fxReq).1 =
      jsonResp1 fxReq 200
        { ok := some true, message := some "Your reading is being sent to your email." } ∧
    (handler2 fxPlat {} fxStubs fxReq).1 =
      jsonResp2 fxReq 200
        { ok := some true, message := some "Your reading is being sent to your email." } :=
  ⟨((c1_end_to_end fxPlat {} fxStubs "Sample reading text" rfl rfl rfl rfl rfl).1 fxReq fxBody
      rfl (by decide) (by decide) (by decide) (by decide)).1,
   ((c1_end_to_end fxPlat {} fxStubs "Sample reading text" rfl rfl rfl rfl rfl).2 fxReq fxBody
      rfl (by decide) (by decide) (by decide)).1⟩

/-- C2: for every POST request whose CAPTCHA verification response carries a
false or missing success flag, both revisions answer 400 with
`hCaptcha verification failed.`, the call trace consists of the CAPTCHA
verification alone, and neither the text-generation service nor the delivery
provider is invoked. -/
theorem c2_captcha_rejected (pf : Platform) (env : Env) (st : Stubs) (hc : CaptchaResp)
    (hcap : st.captcha = some hc)
    (hfalsy : hc.success = none ∨ hc.success = some false) :
    (∀ req body0, req.method = "POST" →
      (isFromShopifyProxy req && !(verifyShopifyProxy pf env req)) = false →
      readBody pf req.contentType req.rawBody = some body0 →
      missingRequired (extractFields (mergeQuery body0 req.query)) = false →
      (extractFields (mergeQuery body0 req.query)).token ≠ "" →
      ((handler1 pf env st req).1 =
         jsonResp1 req 400
           { ok := some false, error := some "hCaptcha verification failed." } ∧
       (handler1 pf env st req).2 =
         [Call.captchaVerify env.hcaptchaSecret
           (extractFields (mergeQuery body0 req.query)).token] ∧
       ∀ c ∈ (handler1 pf env st req).2,
         (∀ p, c ≠ Call.generate p) ∧ (∀ m, c ≠ Call.sendEmail m))) ∧
    (∀ req body0, req.method = "POST" →
      readBody pf req.contentType req.rawBody = some body0 →
      missingRequired (extractFields body0) = false →
      (extractFields body0).token ≠ "" →
      ((handler2 pf env st req).1 =
         jsonResp2 req 400
           { ok := some false, error := some "hCaptcha verification failed." } ∧
       (handler2 pf env st req).2 =
         [Call.captchaVerify env.hcaptchaSecret (extractFields body0).token] ∧
       ∀ c ∈ (handler2 pf env st req).2,
         (∀ p, c ≠ Call.generate p) ∧ (∀ m, c ≠ Call.sendEmail m))) := by
  have hf : hcSuccess hc = false := by
    rcases hfalsy with h | h <;> simp [hcSuccess, h]
  constructor
  · intro req body0 hm hpx hrb hmiss htok
    have h2 : (handler1 pf env st req).2 =
        [Call.captchaVerify env.hcaptchaSecret
          (extractFields (mergeQuery body0 req.query)).token] := by
      simp [handler1, hm, hpx, hrb, hmiss, htok, hcap, hf]
    refine ⟨?_, h2, ?_⟩
    · simp [handler1, hm, hpx, hrb, hmiss, htok, hcap, hf, bad1]
    · rw [h2]
      intro c hcin
      simp only [List.mem_singleton] at hcin
      subst hcin
      exact ⟨fun p => by simp, fun m => by simp⟩
  · intro req body0 hm hrb hmiss htok
    have h2 : (handler2 pf env st req).2 =
        [Call.captchaVerify env.hcaptchaSecret (extractFields body0).token] := by
      simp [handler2, handler2aux, hm, hrb, hmiss, htok, hcap, hf]
    refine ⟨?_, h2, ?_⟩
    · simp [handler2, handler2aux, hm, hrb, hmiss, htok, hcap, hf, bad2]
    · rw [h2]
      intro c hcin
      simp only [List.mem_singleton] at hcin
      subst hcin
      exact ⟨fun p => by simp, fun m => by simp⟩

/-- Witness for C2: under a `{success: false}` CAPTCHA stub the populated
POST `fxReq` gets 400 from both revisions. -/
theorem c2_captcha_rejected_witness :
    (handler1 fxPlat {} fxStubsBadCaptcha fxReq).1 =
      jsonResp1 fxReq 400 { ok := some false, error := some "hCaptcha verification failed." } ∧
    (handler2 fxPlat {} fxStubsBadCaptcha fxReq).1 =
      jsonResp2 fxReq 400 { ok := some false, error := some "hCaptcha verification failed." } :=
  ⟨((c2_captcha_rejected fxPlat {} fxStubsBadCaptcha { success := some false } rfl
        (Or.inr rfl)).1 fxReq fxBody rfl (by decide) (by decide) (by decide) (by decide)).1,
   ((c2_captcha_rejected fxPlat {} fxStubsBadCaptcha { success := some false } rfl
        (Or.inr rfl)).2 fxReq fxBody rfl (by decide) (by decide) (by decide)).1⟩

/-- C7: when generation succeeds with the empty string the pipeline proceeds
— with the renderer and delivery completing, both revisions still answer 200
— and the rendered document body contains the literal fallback
`No content generated.` in place of generated text. -/
theorem c7_empty_generation (pf : Platform) (env : Env) (st : Stubs)
    (hcap : st.captcha = some { success := some true })
    (hgen : st.gen = some "")
    (hrend : st.renderOk = true) (hsend : st.sendOk = true)
    (htm : env.testMode = false) :
    (∀ b f, strBytes "No content generated." <:+: renderPdf1 b f "" ∧
            strBytes "No content generated." <:+: renderPdf2 b f "") ∧
    (∀ req body0, req.method = "POST" →
      (isFromShopifyProxy req && !(verifyShopifyProxy pf env req)) = false →
      readBody pf req.contentType req.rawBody = some body0 →
      missingRequired (extractFields (mergeQuery body0 req.query)) = false →
      (extractFields (mergeQuery body0 req.query)).token ≠ "" →
      ((handler1 pf env st req).1.status = 200 ∧
       Call.sendEmail (email1 env (brandOf env) (extractFields (mergeQuery body0 req.query))
           (renderPdf1 (brandOf env) (extractFields (mergeQuery body0 req.query)) ""))
         ∈ (handler1 pf env st req).2)) ∧
    (∀ req body0, req.method = "POST" →
      readBody pf req.contentType req.rawBody = some body0 →
      missingRequired (extractFields body0) = false →
      (extractFields body0).token ≠ "" →
      ((handler2 pf env st req).1.status = 200 ∧
       Call.sendEmail (email2 env (brandOf env) (extractFields body0)
           (renderPdf2 (brandOf env) (extractFields body0) ""))
         ∈ (handler2 pf env st req).2)) := by
  refine ⟨?_, ?_, ?_⟩
  · intro b f
    constructor
    · have h := bodyChunk_infix disclaimer1 b f ""
      rw [if_pos rfl] at h
      exact h
    · have h := bodyChunk_infix disclaimer2 b f ""
      rw [if_pos rfl] at h
      exact h
  · intro req body0 hm hpx hrb hmiss htok
    constructor
    · simp [handler1, hm, hpx, hrb, hmiss, htok, hcap, hgen, hrend, hsend, hcSuccess,
        jsonResp1]
    · simp [handler1, hm, hpx, hrb, hmiss, htok, hcap, hgen, hrend, hsend, hcSuccess]
  · intro req body0 hm hrb hmiss htok
    constructor
    · simp [handler2, handler2aux, hm, hrb, hmiss, htok, hcap, hgen, hrend, hsend, htm,
        hcSuccess, jsonResp2]
    · simp [handler2, handler2aux, hm, hrb, hmiss, htok, hcap, hgen, hrend, hsend, htm,
        hcSuccess]

/-- Witness for C7: an empty generated string still yields 200, and the
rendered document contains the fallback text. -/
theorem c7_empty_generation_witness :
    strBytes "No content generated." <:+:
      renderPdf1 "Your Brand" (extractFields (mergeQuery fxBody fxReq.query)) "" ∧
    (handler1 fxPlat {} fxStubsEmptyGen fxReq).1.status = 200 :=
  ⟨((c7_empty_generation fxPlat {} fxStubsEmptyGen rfl rfl rfl rfl rfl).1 "Your Brand"
      (extractFields (mergeQuery fxBody fxReq.query))).1,
   ((c7_empty_generation fxPlat {} fxStubsEmptyGen rfl rfl rfl rfl rfl).2.1 fxReq fxBody rfl
      (by decide) (by decide) (by decide) (by decide)).1⟩

/-- C3: for every POST request in which at least one of the fields q, email,
first, last, dob, tob, country, city is missing or empty — in the merged
body-plus-query field set for revision 1, in the parsed body for revision 2 —
the response is status 400 with body
`{ok: false, error: "Missing required fields."}` and an empty call trace; the
fixed message names no particular field. -/
theorem c3_missing_fields (pf : Platform) (env : Env) (st : Stubs) :
    (∀ req body0, req.method = "POST" →
      (isFromShopifyProxy req && !(verifyShopifyProxy pf env req)) = false →
      readBody pf req.contentType req.rawBody = some body0 →
      missingRequired (extractFields (mergeQuery body0 req.query)) = true →
      handler1 pf env st req =
        (jsonResp1 req 400 { ok := some false, error := some "Missing required fields." },
         [])) ∧
    (∀ req body0, req.method = "POST" →
      readBody pf req.contentType req.rawBody = some body0 →
      missingRequired (extractFields body0) = true →
      handler2 pf env st req =
        (jsonResp2 req 400 { ok := some false, error := some "Missing required fields." },
         [])) := by
  constructor
  · intro req body0 hm hpx hrb hmiss
    simp [handler1, hm, hpx, hrb, hmiss, bad1]
  · intro req body0 hm hrb hmiss
    simp [handler2, handler2aux, hm, hrb, hmiss, bad2]

/-- Witness for C3: a concrete POST whose JSON body lacks `q`. -/
theorem c3_missing_fields_witness :
    handler1 fxPlat {} fxStubs fxReqNoQ =
      (jsonResp1 fxReqNoQ 400 { ok := some false, error := some "Missing required fields." },
       []) ∧
    handler2 fxPlat {} fxStubs fxReqNoQ =
      (jsonResp2 fxReqNoQ 400 { ok := some false, error := some "Missing required fields." },
       []) :=
  ⟨(c3_missing_fields fxPlat {} fxStubs).1 fxReqNoQ fxBodyNoQ rfl (by decide) (by decide)
      (by decide),
   (c3_missing_fields fxPlat {} fxStubs).2 fxReqNoQ fxBodyNoQ rfl (by decide) (by decide)⟩

/-- C4: for every POST request whose eight required fields are non-empty but
whose CAPTCHA token is absent, both revisions respond 400 with the
CAPTCHA-specific message `hCaptcha token missing.`, which is distinct from
the generic missing-field message. -/
theorem c4_missing_captcha (pf : Platform) (env : Env) (st : Stubs) :
    ("hCaptcha token missing." ≠ "Missing required fields.") ∧
    (∀ req body0, req.method = "POST" →
      (isFromShopifyProxy req && !(verifyShopifyProxy pf env req)) = false →
      readBody pf req.contentType req.rawBody = some body0 →
      missingRequired (extractFields (mergeQuery body0 req.query)) = false →
      (extractFields (mergeQuery body0 req.query)).token = "" →
      handler1 pf env st req =
        (jsonResp1 req 400 { ok := some false, error := some "hCaptcha token missing." },
         [])) ∧
    (∀ req body0, req.method = "POST" →
      readBody pf req.contentType req.rawBody = some body0 →
      missingRequired (extractFields body0) = false →
      (extractFields body0).token = "" →
      handler2 pf env st req =
        (jsonResp2 req 400 { ok := some false, error := some "hCaptcha token missing." },
         [])) := by
  refine ⟨by decide, ?_, ?_⟩
  · intro req body0 hm hpx hrb hmiss htok
    simp [handler1, hm, hpx, hrb, hmiss, htok, bad1]
  · intro req body0 hm hrb hmiss htok
    simp [handler2, handler2aux, hm, hrb, hmiss, htok, bad2]

/-- Witness for C4: a concrete POST whose JSON body lacks `hcaptchaToken`. -/
theorem c4_missing_captcha_witness :
    handler1 fxPlat {} fxStubs fxReqNoTok =
      (jsonResp1 fxReqNoTok 400 { ok := some false, error := some "hCaptcha token missing." },
       []) ∧
    handler2 fxPlat {} fxStubs fxReqNoTok =
      (jsonResp2 fxReqNoTok 400 { ok := some false, error := some "hCaptcha token missing." },
       []) :=
  ⟨(c4_missing_captcha fxPlat {} fxStubs).2.1 fxReqNoTok fxBodyNoTok rfl (by decide)
      (by decide) (by decide) (by decide),
   (c4_missing_captcha fxPlat {} fxStubs).2.2 fxReqNoTok fxBodyNoTok rfl (by decide)
      (by decide) (by decide)⟩

/-- C5: for POST requests carrying the App Proxy forwarding headers while a
signing secret is configured, revision 1 recomputes the hex HMAC-SHA256 over
the request path, `?`, and the non-signature query parameters as raw `k=v`
pairs sorted lexicographically and joined with `&`, and compares it with the
supplied signature by `crypto.timingSafeEqual` on the hex-decoded buffers; an
absent signature or a mismatch yields status 401, and without a configured
secret the check is skipped and every request passes it. (The constant-time
character of that comparison is a timing property; it enters the model
through the functional contract of `timingSafeEqHex`.) -/
theorem c5_proxy_signature (pf : Platform) (env : Env) (st : Stubs) (req : Request)
    (hm : req.method = "POST") :
    (env.shopifySecret = "" → verifyShopifyProxy pf env req = true) ∧
    (env.shopifySecret ≠ "" → qpGet req.query "signature" = none →
      verifyShopifyProxy pf env req = false) ∧
    (∀ s, env.shopifySecret ≠ "" → qpGet req.query "signature" = some s →
      verifyShopifyProxy pf env req =
        timingSafeEqHex s (pf.hmacHex env.shopifySecret
          (req.path ++ "?" ++ joinAmp (sortStrings (proxyPairs req.query))))) ∧
    (isFromShopifyProxy req = true → verifyShopifyProxy pf env req = false →
      handler1 pf env st req = (bad1 req 401 "Invalid Shopify proxy signature", [])) ∧
    (verifyShopifyProxy pf env req = true → (handler1 pf env st req).1.status ≠ 401) := by
  refine ⟨?_, ?_, ?_, ?_, ?_⟩
  · intro h
    simp [verifyShopifyProxy, h]
  · intro h hs
    simp [verifyShopifyProxy, h, hs]
  · intro s h hs
    simp [verifyShopifyProxy, h, hs]
  · intro hshop hv
    simp [handler1, hm, hshop, hv, bad1]
  · intro hv
    have h4 : (isFromShopifyProxy req && !(verifyShopifyProxy pf env req)) = false := by
      simp [hv]
    unfold handler1
    rw [h4]
    dsimp only
    repeat' split
    all_goals simp_all [bad1, jsonResp1]

/-- Witness for C5: with no secret the check passes; with the secret `sek`
and a tampered signature the proxied POST `fxProxyReq` is answered 401. -/
theorem c5_proxy_signature_witness :
    verifyShopifyProxy fxPlat {} fxProxyReq = true ∧
    handler1 fxPlat fxEnvSecret fxStubs fxProxyReq =
      (bad1 fxProxyReq 401 "Invalid Shopify proxy signature", []) :=
  ⟨(c5_proxy_signature fxPlat {} fxStubs fxProxyReq rfl).1 rfl,
   (c5_proxy_signature fxPlat fxEnvSecret fxStubs fxProxyReq rfl).2.2.2.1 (by decide)
     (by decide)⟩

/-- C6 counterexample: a POST declaring a JSON content type whose raw body
(the empty byte sequence) does not parse as JSON — the platform parser fails
on it — is not answered with a 400-class error: the handler never invokes the
parser on an empty body, treats it as the empty record, and with every field
supplied in the query string completes with status 200. -/
theorem c6_counterexample :
    fxPlat.jsonParse fxQueryReq.rawBody = none ∧
    containsSub "application/json".data (lowerData fxQueryReq.contentType) = true ∧
    fxQueryReq.method = "POST" ∧
    (handler1 fxPlat {} fxStubs fxQueryReq).1.status = 200 := by
  refine ⟨by decide, by decide, rfl, by decide⟩

/-- C6 (amended): body parsing per content type — a declared-JSON body parses
strictly when non-empty and unparseable bytes are answered with the 400
`Invalid JSON body` response; an empty raw body is the empty record even
under a JSON content type; a URL-form-encoded content type that does not also
declare JSON parses as form fields; any other content type is best-effort
JSON, yielding the empty record on failure or emptiness rather than an
error. -/
theorem c6_body_parsing (pf : Platform) (ct raw : String) :
    (containsSub "application/json".data (lowerData ct) = true → raw ≠ "" →
      pf.jsonParse raw = none → readBody pf ct raw = none) ∧
    (containsSub "application/json".data (lowerData ct) = true → raw = "" →
      readBody pf ct raw = some []) ∧
    (containsSub "application/json".data (lowerData ct) = false →
      containsSub "application/x-www-form-urlencoded".data (lowerData ct) = true →
      readBody pf ct raw = some (pf.formParse raw)) ∧
    (containsSub "application/json".data (lowerData ct) = false →
      containsSub "application/x-www-form-urlencoded".data (lowerData ct) = false →
      readBody pf ct raw = some (if raw = "" then [] else (pf.jsonParse raw).getD [])) ∧
    (∀ env st req, req.method = "POST" →
      (isFromShopifyProxy req && !(verifyShopifyProxy pf env req)) = false →
      containsSub "application/json".data (lowerData req.contentType) = true →
      req.rawBody ≠ "" → pf.jsonParse req.rawBody = none →
      handler1 pf env st req = (bad1 req 400 "Invalid JSON body", []) ∧
      handler2 pf env st req = (bad2 req 400 "Invalid JSON body", [])) := by
  refine ⟨?_, ?_, ?_, ?_, ?_⟩
  · intro hj hr hp
    simp [readBody, hj, hr, hp]
  · intro hj hr
    simp [readBody, hj, hr]
  · intro hj hf
    simp [readBody, hj, hf]
  · intro hj hf
    by_cases hr : raw = ""
    · simp [readBody, hj, hf, hr]
    · cases hp : pf.jsonParse raw <;> simp [readBody, hj, hf, hr, hp]
  · intro env st req hm hpx hj hr hp
    have hrb : readBody pf req.contentType req.rawBody = none := by
      simp [readBody, hj, hr, hp]
    constructor
    · simp [handler1, hm, hpx, hrb, bad1]
    · simp [handler2, handler2aux, hm, hrb, bad2]

/-- Witness for C6 (amended): the unparseable non-empty body `zzz` under a
JSON content type is rejected with 400 `Invalid JSON body`. -/
theorem c6_body_parsing_witness :
    readBody fxPlat "application/json" "zzz" = none ∧
    handler1 fxPlat {} fxStubs fxReqBadJson =
      (bad1 fxReqBadJson 400 "Invalid JSON body", []) :=
  ⟨(c6_body_parsing fxPlat "application/json" "zzz").1 (by decide) (by decide) (by decide),
   ((c6_body_parsing fxPlat "application/json" "zzz").2.2.2.2 {} fxStubs fxReqBadJson rfl
      (by decide) (by decide) (by decide) (by decide)).1⟩

/-- C8: every response of the revision with the outer catch-all carries a
well-formed JSON body — no branch, the escaped-exception branch included,
ends without one — and an exception escaping every step-specific handler (the
TEST_MODE `await renderPdf`, the one such site in the source) is caught by
the outer catch and answered 500 `{ok: false, error: "Server error."}`.
Revision 1 has no outer catch, but each of its fallible steps is wrapped by a
step-specific handler. -/
theorem c8_catch_all (pf : Platform) (env : Env) (st : Stubs)
    (hcap : st.captcha = some { success := some true })
    (htm : env.testMode = true) (hrend : st.renderOk = false) :
    (∀ (pf2 : Platform) (env2 : Env) (st2 : Stubs) (req : Request),
      ((handler2 pf2 env2 st2 req).1.body).isSome = true) ∧
    (∀ req body0, req.method = "POST" →
      readBody pf req.contentType req.rawBody = some body0 →
      missingRequired (extractFields body0) = false →
      (extractFields body0).token ≠ "" →
      ((handler2aux pf env st req).1 = none ∧
       (handler2 pf env st req).1 =
         jsonResp2 req 500 { ok := some false, error := some "Server error." })) := by
  constructor
  · intro pf2 env2 st2 req
    unfold handler2 handler2aux
    repeat' split
    all_goals dsimp only
    repeat' split
    all_goals simp_all [bad2, jsonResp2]
  · intro req body0 hm hrb hmiss htok
    have haux : (handler2aux pf env st req).1 = none := by
      simp [handler2aux, hm, hrb, hmiss, htok, hcap, htm, hrend, hcSuccess]
    exact ⟨haux, by simp [handler2, haux]⟩

/-- Witness for C8: in TEST_MODE with a failing renderer the populated POST
`fxReq` escapes every inner handler and the outer catch answers 500. -/
theorem c8_catch_all_witness :
    (handler2aux fxPlat fxEnvTest fxStubsNoRender fxReq).1 = none ∧
    (handler2 fxPlat fxEnvTest fxStubsNoRender fxReq).1 =
      jsonResp2 fxReq 500 { ok := some false, error := some "Server error." } :=
  (c8_catch_all fxPlat fxEnvTest fxStubsNoRender rfl rfl rfl).2 fxReq fxBody rfl (by decide)
    (by decide) (by decide)

/-- C9: for every OPTIONS request both revisions return 204 with no content —
revision 1 ends the response without writing a body, revision 2 writes the
empty JSON object carrying no fields — set the CORS headers (allowed origin
echoing the request origin or `*`, allowed methods, allowed headers), make no
outbound call, and never reach body parsing or validation. -/
theorem c9_options_preflight (pf : Platform) (env : Env) (st : Stubs) (req : Request)
    (hm : req.method = "OPTIONS") :
    handler1 pf env st req = ({ status := 204, headers := setCors1 req, body := none }, []) ∧
    handler2 pf env st req = (jsonResp2 req 204 {}, []) ∧
    ("Access-Control-Allow-Origin", if req.origin = "" then "*" else req.origin)
      ∈ setCors1 req ∧
    ("Access-Control-Allow-Methods", "POST, OPTIONS") ∈ setCors1 req ∧
    ("Access-Control-Allow-Headers", if req.acrh = "" then "Content-Type" else req.acrh)
      ∈ setCors1 req ∧
    ("Access-Control-Allow-Origin", if req.origin = "" then "*" else req.origin)
      ∈ (jsonResp2 req 204 {}).headers ∧
    ("Access-Control-Allow-Methods", "POST, OPTIONS, GET") ∈ (jsonResp2 req 204 {}).headers ∧
    ("Access-Control-Allow-Headers", if req.acrh = "" then "Content-Type" else req.acrh)
      ∈ (jsonResp2 req 204 {}).headers := by
  refine ⟨?_, ?_, ?_, ?_, ?_, ?_, ?_, ?_⟩ <;>
    simp [handler1, handler2, handler2aux, hm, setCors1, setCors2, jsonResp2]

/-- Witness for C9 at a concrete OPTIONS request with an Origin header. -/
theorem c9_options_preflight_witness :
    handler1 fxPlat {} fxStubs fxOptions =
      ({ status := 204, headers := setCors1 fxOptions, body := none }, []) ∧
    handler2 fxPlat {} fxStubs fxOptions = (jsonResp2 fxOptions 204 {}, []) :=
  ⟨(c9_options_preflight fxPlat {} fxStubs fxOptions rfl).1,
   (c9_options_preflight fxPlat {} fxStubs fxOptions rfl).2.1⟩

/-- C10: every query parameter whose key is absent from the parsed body is
merged into the field set, with the body value taking precedence when both
are present (and the first query occurrence winning among duplicates), so the
required fields can be satisfied by the query string alone: a POST whose
parsed body is empty but whose query carries every field passes validation
and reaches the CAPTCHA call. -/
theorem c10_query_merge (pf : Platform) (env : Env) (st : Stubs) :
    (∀ (body : Obj) (qs : List (String × String)) (k : String),
      ((mergeQuery body qs).lookup k) = ((body.lookup k).or (qs.lookup k))) ∧
    (∀ req, req.method = "POST" →
      (isFromShopifyProxy req && !(verifyShopifyProxy pf env req)) = false →
      readBody pf req.contentType req.rawBody = some [] →
      missingRequired (extractFields (mergeQuery [] req.query)) = false →
      (extractFields (mergeQuery [] req.query)).token ≠ "" →
      ∃ rest, (handler1 pf env st req).2 =
        Call.captchaVerify env.hcaptchaSecret
          (extractFields (mergeQuery [] req.query)).token :: rest) := by
  constructor
  · exact fun body qs k => mergeQuery_lookup qs body k
  · intro req hm hpx hrb hmiss htok
    simp only [handler1, hm, hpx, hrb, hmiss, htok]
    repeat' split
    all_goals first
      | exact ⟨_, rfl⟩
      | simp_all

/-- Witness for C10: the empty-body POST `fxQueryReq` whose query string
carries every field reaches the CAPTCHA verification call. -/
theorem c10_query_merge_witness :
    ((mergeQuery [] fxQueryReq.query).lookup "q") =
      ((([] : Obj).lookup "q").or (fxQueryReq.query.lookup "q")) ∧
    ∃ rest, (handler1 fxPlat {} fxStubs fxQueryReq).2 =
      Call.captchaVerify "" (extractFields (mergeQuery [] fxQueryReq.query)).token :: rest :=
  ⟨(c10_query_merge fxPlat {} fxStubs).1 [] fxQueryReq.query "q",
   (c10_query_merge fxPlat {} fxStubs).2 fxQueryReq rfl (by decide) (by decide) (by decide)
     (by decide)⟩

end AstraIntake
